import Mathlib

/-!
Verification development for the food-recommendation-agent repository.

The repository contains two near-duplicate variants of the same agent glue
code: `debug_run.py` (an exported notebook) and `food_agent_runtime.py`
(the AgentCore runtime entrypoint).  This file gives a shallow embedding of
the local logic of both variants:

* `safe_invoke` (debug variant only): bounded retry with a model-fallback
  list and exponential backoff;
* `FoodMemoryHookProvider.on_agent_initialized` and
  `FoodMemoryHookProvider.on_after_invocation` (both variants): the memory
  hooks that read and write a remote memory store;
* `search_food` (both variants): the web-search tool wrapper;
* `food_agent` (runtime variant only): the runtime entrypoint managing the
  global agent instance.

External services (the Bedrock model, the AgentCore memory store, the DDGS
search backend) are modelled as function parameters whose results include an
error case (`Except`), standing for a Python exception raised by the call.
Effects on those services (queries made, events sent, sleeps performed,
models swapped) are returned as explicit lists so theorems can speak about
them.  Python truthiness of optional strings (`None` and `""` are falsy) is
modelled by `pyTruthy`.
-/

namespace FoodAgent

/-- Python truthiness of an optional string value: `None` and the empty
string are falsy, every other string is truthy. -/
def pyTruthy : Option String → Bool
  | none => false
  | some s => !s.isEmpty

/-- Whether `pat` is an initial segment of `cs`. -/
def charsStartWith : List Char → List Char → Bool
  | [], _ => true
  | _ :: _, [] => false
  | p :: ps, c :: cs => p == c && charsStartWith ps cs

/-- Whether `pat` occurs contiguously in `cs`. -/
def charsContain (pat : List Char) : List Char → Bool
  | [] => pat.isEmpty
  | c :: cs => charsStartWith pat (c :: cs) || charsContain pat cs

/-- Python `str.lower()` (ASCII case folding, as used by the error strings
the code inspects). -/
def pyLower (s : String) : String := String.mk (s.toList.map Char.toLower)

/-- Python `pat in s` substring containment. -/
def strContainsSub (s pat : String) : Bool := charsContain pat.toList s.toList

/-- The whitespace characters removed by Python `str.strip()`. -/
def isPyWs (c : Char) : Bool :=
  c == ' ' || c == '\t' || c == '\n' || c == '\r' || c == '\x0b' || c == '\x0c'

/-- Python `str.strip()`. -/
def pyStrip (s : String) : String :=
  String.mk (((s.toList.dropWhile isPyWs).reverse.dropWhile isPyWs).reverse)

/-! ### Transcript data model

A transcript message is a dict with a `role` and a `content` list.  Each
content block is either a dict — possibly carrying a `"text"` entry and
possibly carrying a `"toolResult"` entry — or some non-dict value (the code
checks `isinstance(content[0], dict)`). -/

/-- One content block of a transcript message. -/
inductive Block where
  | dict (text : Option String) (toolResult : Bool)
  | nondict
deriving Repr, DecidableEq

/-- One transcript message: `{"role": ..., "content": [...]}`.  A missing
`content` key defaults to `[]` in the code (`msg.get("content", [])`),
which the empty list covers. -/
structure Message where
  role : String
  content : List Block
deriving Repr, DecidableEq

/-- The check `content and isinstance(content[0], dict) and "text" in content[0]`,
returning `content[0]["text"]` when all three parts pass. -/
def headText : List Block → Option String
  | Block.dict (some t) _ :: _ => some t
  | _ => none

/-- Like `headText`, but additionally requiring
`"toolResult" not in content[0]` (the user-message check). -/
def headTextNoTool : List Block → Option String
  | Block.dict (some t) toolResult :: _ => if toolResult then none else some t
  | _ => none

/-- The backward scan of `on_after_invocation` (identical in both variants):
iterate over the reversed transcript with mutable `assistant_msg` / `user_msg`
(initially `None`), taking the first assistant text while `assistant_msg` is
falsy, and breaking out of the loop at the first user text block without a
`toolResult` while `user_msg` is falsy.  Returns the final
`(assistant_msg, user_msg)` pair. -/
def scanLoop : List Message → Option String → Option String → Option String × Option String
  | [], a?, u? => (a?, u?)
  | m :: rest, a?, u? =>
    if m.role == "assistant" && !pyTruthy a? then
      match headText m.content with
      | some t => scanLoop rest (some t) u?
      | none => scanLoop rest a? u?
    else if m.role == "user" && !pyTruthy u? then
      match headTextNoTool m.content with
      | some t => (a?, some t)
      | none => scanLoop rest a? u?
    else scanLoop rest a? u?

/-- The final `if user_msg and assistant_msg` check applied to the scan
result: the pair `(user_text, assistant_text)` when both are truthy. -/
def postProcess : Option String × Option String → Option (String × String)
  | (some a, some u) => if !u.isEmpty && !a.isEmpty then some (u, a) else none
  | _ => none

/-- Recursive restatement of the backward scan over the reversed transcript,
with the searched-for-user phase handled by `findUserBack`
(assistant text already found) and this function handling the phase before
any non-empty assistant text was found. -/
def findUserBack : List Message → Option String
  | [] => none
  | m :: rest =>
    if m.role == "user" then
      match headTextNoTool m.content with
      | some t => if t.isEmpty then none else some t
      | none => findUserBack rest
    else findUserBack rest

/-- See `findUserBack`: the phase of the backward scan before a non-empty
assistant text is found.  A qualifying user text block encountered in this
phase stops the whole scan with no pair (the loop `break`). -/
def findPairBack : List Message → Option (String × String)
  | [] => none
  | m :: rest =>
    if m.role == "assistant" then
      match headText m.content with
      | some t =>
        if t.isEmpty then findPairBack rest
        else
          match findUserBack rest with
          | some u => some (u, t)
          | none => none
      | none => findPairBack rest
    else if m.role == "user" then
      match headTextNoTool m.content with
      | some _ => none
      | none => findPairBack rest
    else findPairBack rest

/-! ### Memory store interface -/

/-- One `retrieve_memories` call: the arguments the hook passes to the
memory client. -/
structure MemQuery where
  memory_id : String
  ns : String
  query : String
  top_k : Nat
deriving Repr, DecidableEq

/-- One `create_event` call: the arguments the hook passes to the memory
client. -/
structure EventRec where
  memory_id : String
  actor_id : String
  session_id : String
  messages : List (String × String)
deriving Repr, DecidableEq

/-- The value of the `content` key of a retrieved preference record:
`pref.get("content")` (with an empty-dict default) yields a dict (possibly without a `text` entry)
or some non-dict value. -/
inductive PrefContent where
  | nondict
  | dict (text : Option String)
deriving Repr, DecidableEq

/-- One record returned by `retrieve_memories`: a dict with a `content`
entry (a missing `content` key defaults to `{}`, i.e. `dict none`), or some
non-dict value (the code checks `isinstance(pref, dict)`). -/
inductive PrefRecord where
  | nondict
  | record (content : PrefContent)
deriving Repr, DecidableEq

/-- The per-record body of the preference-formatting loop: the stripped
`content` text as a `"- "`-bulleted entry when it is a dict text that is
non-empty after stripping, and nothing otherwise. -/
def prefBullet : PrefRecord → Option String
  | PrefRecord.nondict => none
  | PrefRecord.record PrefContent.nondict => none
  | PrefRecord.record (PrefContent.dict t?) =>
    let t := pyStrip (t?.getD "")
    if t.isEmpty then none else some ("- " ++ t)

/-- The fixed retrieval query string used by both variants. -/
def prefQuery : String := "food preferences cuisines dietary restrictions favorites"

/-- Result of a run of `on_agent_initialized`: the (possibly extended)
system prompt, the `retrieve_memories` calls made, and the logged error of
the `except` handler, if any.  The hook itself always returns normally. -/
structure InitResult where
  system_prompt : String
  queries : List MemQuery
  errorLog : Option String
deriving Repr, DecidableEq

/-- Result of a run of `on_after_invocation`: the `create_event` calls made
and the logged error of the `except` handler, if any.  The hook itself
always returns normally. -/
structure AfterResult where
  events : List EventRec
  errorLog : Option String
deriving Repr, DecidableEq

/-! ### Search tool interface -/

/-- A Python exception raised by the DDGS search call: either the dedicated
`RatelimitException` or any other exception with its `str(e)` text. -/
inductive SearchErr where
  | rateLimit
  | other (msg : String)
deriving Repr, DecidableEq

/-- One search result dict; `title` and `body` keys may be absent
(`r.get("title")` with default "No title", `r.get("body")` with default ""). -/
structure SearchResult where
  title : Option String
  body : Option String
deriving Repr, DecidableEq

/-- The numbered entry list built by the `for i, r in enumerate(results, 1)`
loop; `sep` is the separator between title and body inside one entry
(a real newline plus three spaces in the debug variant, the literal
characters backslash-n plus three spaces in the runtime variant). -/
def formatEntries (sep : String) : List SearchResult → Nat → List String
  | [], _ => []
  | r :: rest, i =>
    (toString i ++ ". " ++ r.title.getD "No title" ++ sep ++ r.body.getD "")
      :: formatEntries sep rest (i + 1)

/-! ### safe_invoke (debug variant) -/

/-- The outcome of one `agent(user_input)` call: a normal response or a
raised exception with its `str(e)` text. -/
inductive CallResult where
  | ok (resp : String)
  | raise (msg : String)
deriving Repr, DecidableEq

/-- How a run of `safe_invoke` ends: a normal `return` (of the agent
response, or of Python `None` when the loop falls through) or a propagated
exception. -/
inductive SafeOutcome where
  | returned (v : Option String)
  | raised (msg : String)
deriving Repr, DecidableEq

/-- Observable trace of the retry loop: number of agent calls made, the
backoff sleeps performed (in seconds, in order), the fallback models
assigned to `agent.model` (in order), and the outcome. -/
structure InvokeTrace where
  ncalls : Nat
  sleeps : List Nat
  swaps : List String
  outcome : SafeOutcome
deriving Repr, DecidableEq

/-- The fixed fallback model list of `safe_invoke`. -/
def fallbacks : List String :=
  ["us.anthropic.claude-3-5-haiku-20241022-v1:0",
   "us.anthropic.claude-3-haiku-20240307-v1:0",
   "us.anthropic.claude-3-5-sonnet-20241022-v2:0"]

/-- The throttling classification of `safe_invoke`:
`error_str = str(e).lower()` contains `"throttl"`, `"429"` or `"rate"`. -/
def isThrottling (msg : String) : Bool :=
  strContainsSub (pyLower msg) "throttl" || strContainsSub (pyLower msg) "429"
    || strContainsSub (pyLower msg) "rate"

/-- The `for attempt in range(max_retries)` loop of `safe_invoke`.
`calls attempt model` is the outcome of the agent call at the given 0-based
attempt with the given current `agent.model`; the remaining iteration count
drives the recursion.  Falling out of the loop returns Python `None`. -/
def safeInvokeLoop (calls : Nat → String → CallResult) : String → Nat → Nat → InvokeTrace
  | _, _, 0 => ⟨0, [], [], SafeOutcome.returned none⟩
  | model, attempt, rem + 1 =>
    match calls attempt model with
    | CallResult.ok v => ⟨1, [], [], SafeOutcome.returned (some v)⟩
    | CallResult.raise msg =>
      if isThrottling msg then
        if h : attempt < fallbacks.length then
          let fallback_model := fallbacks[attempt]
          let next := safeInvokeLoop calls fallback_model (attempt + 1) rem
          ⟨next.ncalls + 1, 2 ^ attempt :: next.sleeps,
            fallback_model :: next.swaps, next.outcome⟩
        else ⟨1, [], [], SafeOutcome.raised msg⟩
      else ⟨1, [], [], SafeOutcome.raised msg⟩

/-- A whole run of `safe_invoke`: the fixed `time.sleep(1)` before the loop,
then the retry loop starting at attempt 0 with the initial model. -/
structure SafeInvokeRun where
  preDelay : Nat
  trace : InvokeTrace
deriving Repr, DecidableEq

/-- The function `safe_invoke(agent, user_input, max_retries=3)` from `debug_run.py`;
the call sites of the repository all use the default `max_retries = 3`. -/
def safe_invoke (calls : Nat → String → CallResult) (model : String)
    (max_retries : Nat) : SafeInvokeRun :=
  ⟨1, safeInvokeLoop calls model 0 max_retries⟩

/-! ### debug_run.py variant of the hooks and the search tool -/

namespace DebugRun

/-- The fixed header of the appended preference context in `debug_run.py`
(real newline characters). -/
def initHeader : String := "\n\n## User\x27s Food Preferences (from previous conversations):\n"

/-- The hook `FoodMemoryHookProvider.on_agent_initialized` from `debug_run.py`.
`memory_id` is the `self.memory_id` of the provider, `actor?` the value of
`event.agent.state.get("actor_id")`, and `retrieve` the memory client call
`retrieve_memories` (its `Except.error` case is a raised exception, caught
by the except handler which logs it). -/
def on_agent_initialized (memory_id : String) (system_prompt : String)
    (actor? : Option String)
    (retrieve : MemQuery → Except String (List PrefRecord)) : InitResult :=
  if !pyTruthy actor? then ⟨system_prompt, [], none⟩
  else
    let actor_id := actor?.getD ""
    let q : MemQuery :=
      ⟨memory_id, "user/" ++ actor_id ++ "/food_preferences", prefQuery, 3⟩
    match retrieve q with
    | Except.error e => ⟨system_prompt, [q], some e⟩
    | Except.ok preferences =>
      if preferences.isEmpty then ⟨system_prompt, [q], none⟩
      else
        let pref_texts := preferences.foldl
          (fun acc p =>
            match prefBullet p with
            | some b => acc ++ [b]
            | none => acc) []
        if pref_texts.isEmpty then ⟨system_prompt, [q], none⟩
        else
          ⟨system_prompt ++ initHeader ++ String.intercalate "\n" pref_texts,
            [q], none⟩

/-- The hook `FoodMemoryHookProvider.on_after_invocation` from `debug_run.py`.
`actor?`, `session?` are `event.agent.state.get(...)` values and
`create_event` is the memory client call (its `Except.error` case a raised
exception, caught and logged). -/
def on_after_invocation (memory_id : String) (messages : List Message)
    (actor? session? : Option String)
    (create_event : EventRec → Except String Unit) : AfterResult :=
  if messages.length < 2 then ⟨[], none⟩
  else if !pyTruthy actor? || !pyTruthy session? then ⟨[], none⟩
  else
    let scanned := scanLoop messages.reverse none none
    if pyTruthy scanned.2 && pyTruthy scanned.1 then
      let ev : EventRec :=
        ⟨memory_id, actor?.getD "", session?.getD "",
          [(scanned.2.getD "", "USER"), (scanned.1.getD "", "ASSISTANT")]⟩
      match create_event ev with
      | Except.ok _ => ⟨[ev], none⟩
      | Except.error e => ⟨[ev], some e⟩
    else ⟨[], none⟩

/-- The tool `search_food` from `debug_run.py` (default `max_results = 5`).
`ddgsText` is the
`DDGS().text(...)` backend call with the composed query and `max_results`;
its `Except.error` case is a raised exception. -/
def search_food (ddgsText : String → Nat → Except SearchErr (List SearchResult))
    (query : String) (max_results : Nat) : String :=
  match ddgsText (query ++ " food recipe restaurant") max_results with
  | Except.error SearchErr.rateLimit => "Rate limit reached. Please try again later."
  | Except.error (SearchErr.other e) => "Search error: " ++ e
  | Except.ok results =>
    if results.isEmpty then "No results found."
    else String.intercalate "\n\n" (formatEntries "\n   " results 1)

end DebugRun

/-! ### food_agent_runtime.py variant of the hooks, the search tool and the
runtime entrypoint.  Note: the f-strings of this file contain the escaped
sequence backslash-backslash-n, so the strings this variant builds contain
the literal two characters backslash and n, not newline characters. -/

namespace RuntimeApp

/-- The fixed header of the appended preference context in
`food_agent_runtime.py` (literal backslash-n character pairs). -/
def initHeader : String := "\\n\\n## User\x27s Food Preferences:\\n"

/-- The hook `FoodMemoryHookProvider.on_agent_initialized` from
`food_agent_runtime.py`: `memory_id` also comes from agent state and is
checked together with `actor_id`; `top_k` is 5. -/
def on_agent_initialized (system_prompt : String)
    (memory_id? actor? : Option String)
    (retrieve : MemQuery → Except String (List PrefRecord)) : InitResult :=
  if !pyTruthy memory_id? || !pyTruthy actor? then ⟨system_prompt, [], none⟩
  else
    let q : MemQuery :=
      ⟨memory_id?.getD "", "user/" ++ actor?.getD "" ++ "/food_preferences",
        prefQuery, 5⟩
    match retrieve q with
    | Except.error e => ⟨system_prompt, [q], some e⟩
    | Except.ok preferences =>
      if preferences.isEmpty then ⟨system_prompt, [q], none⟩
      else
        let pref_texts := preferences.foldl
          (fun acc p =>
            match prefBullet p with
            | some b => acc ++ [b]
            | none => acc) []
        if pref_texts.isEmpty then ⟨system_prompt, [q], none⟩
        else
          ⟨system_prompt ++ initHeader ++ String.intercalate "\\n" pref_texts,
            [q], none⟩

/-- The hook `FoodMemoryHookProvider.on_after_invocation` from
`food_agent_runtime.py`: the identifier check (now including `memory_id`
from agent state) comes before the message-count check. -/
def on_after_invocation (messages : List Message)
    (memory_id? actor? session? : Option String)
    (create_event : EventRec → Except String Unit) : AfterResult :=
  if !pyTruthy memory_id? || !pyTruthy actor? || !pyTruthy session? then ⟨[], none⟩
  else if messages.length < 2 then ⟨[], none⟩
  else
    let scanned := scanLoop messages.reverse none none
    if pyTruthy scanned.2 && pyTruthy scanned.1 then
      let ev : EventRec :=
        ⟨memory_id?.getD "", actor?.getD "", session?.getD "",
          [(scanned.2.getD "", "USER"), (scanned.1.getD "", "ASSISTANT")]⟩
      match create_event ev with
      | Except.ok _ => ⟨[ev], none⟩
      | Except.error e => ⟨[ev], some e⟩
    else ⟨[], none⟩

/-- The tool `search_food` from `food_agent_runtime.py` (default
`max_results = 5`): same logic as the debug
variant, but the entry separator and the join separator are the literal
backslash-n sequences of the escaped f-strings. -/
def search_food (ddgsText : String → Nat → Except SearchErr (List SearchResult))
    (query : String) (max_results : Nat) : String :=
  match ddgsText (query ++ " food recipe restaurant") max_results with
  | Except.error SearchErr.rateLimit => "Rate limit reached. Please try again later."
  | Except.error (SearchErr.other e) => "Search error: " ++ e
  | Except.ok results =>
    if results.isEmpty then "No results found."
    else String.intercalate "\\n\\n" (formatEntries "\\n   " results 1)

/-- The relevant state of the global `agent` created by `initialize_agent`:
the `state` dict it is constructed with. -/
structure AgentRec where
  memory_id : String
  actor_id : String
  session_id : String
deriving Repr, DecidableEq

/-- The request payload of the runtime entrypoint; `none` fields stand for
absent keys (`payload.get("prompt")`, `payload.get("actor_id",
"default_user")`). -/
structure Payload where
  prompt : Option String
  actor_id : Option String
deriving Repr, DecidableEq

/-- Result of one call of the `food_agent` entrypoint: the new value of the
global `agent`, the returned string, the `initialize_agent` calls made
(actor/session arguments, in order) and the `agent(user_input)` invocations
made (in order). -/
structure EntryResult where
  agent : Option AgentRec
  response : String
  inits : List (String × String)
  invocations : List String
deriving Repr, DecidableEq

/-- The `@app.entrypoint` function `food_agent` from
`food_agent_runtime.py`.  `agent0` is the current global `agent`,
`session_id` is `context.session_id`, `MEMORY_ID` the module-level
environment value, and `invoke` the agent invocation, abstracted to return
the extracted response text. -/
def food_agent (agent0 : Option AgentRec) (payload : Payload)
    (session_id : String) (MEMORY_ID : String)
    (invoke : String → String) : EntryResult :=
  let user_input := payload.prompt
  let actor_id := payload.actor_id.getD "default_user"
  if !pyTruthy user_input then
    ⟨agent0, "❌ ERROR: Missing \x27prompt\x27 field in payload", [], []⟩
  else if MEMORY_ID.isEmpty then
    ⟨agent0,
      "❌ ERROR: MEMORY_ID environment variable not set. Please deploy properly to Agent Core runtime.",
      [], []⟩
  else
    let initState :=
      match agent0 with
      | none => (some (AgentRec.mk MEMORY_ID actor_id session_id), [(actor_id, session_id)])
      | some a =>
        if a.session_id ≠ session_id ∨ a.actor_id ≠ actor_id then
          (some (AgentRec.mk MEMORY_ID actor_id session_id), [(actor_id, session_id)])
        else (some a, [])
    ⟨initState.1, invoke (user_input.getD ""), initState.2, [user_input.getD ""]⟩

end RuntimeApp

/-! ### Specification-side definitions

These two definitions follow the words of the specification claims (not the
source) and exist only to be compared with the source-derived definitions
above. -/

/-- Claim-side helper: the most recent assistant text message of a reversed
transcript, together with the older remainder of the transcript. -/
def specFindAssistant : List Message → Option (String × List Message)
  | [] => none
  | m :: rest =>
    if m.role == "assistant" then
      match headText m.content with
      | some t => some (t, rest)
      | none => specFindAssistant rest
    else specFindAssistant rest

/-- Claim-side helper: the most recent user text message of a reversed
transcript that is not a tool result. -/
def specFindUser : List Message → Option String
  | [] => none
  | m :: rest =>
    if m.role == "user" then
      match headTextNoTool m.content with
      | some t => some t
      | none => specFindUser rest
    else specFindUser rest

/-- Stated from the claim wording, not from the source: the most recent
assistant text message of a transcript and the most recent user text
message prior to it that is not a tool result. -/
def specMostRecentPair (messages : List Message) : Option (String × String) :=
  match specFindAssistant messages.reverse with
  | some (a, older) =>
    match specFindUser older with
    | some u => some (u, a)
    | none => none
  | none => none

/-- Stated from the claim wording, not from the source: format the first
`max_results` results as a numbered list (the reading the claim takes of
`search_food`), with the debug-variant separators. -/
def specSearchFormat (results : List SearchResult) (max_results : Nat) : String :=
  if results.isEmpty then "No results found."
  else String.intercalate "\n\n" (formatEntries "\n   " (results.take max_results) 1)

end FoodAgent

/-! ## Helper lemmas about the backward transcript scan -/

namespace FoodAgent

/-- After a non-empty assistant text has been recorded, the remaining scan
is exactly the search for a qualifying user text. -/
theorem scanLoop_after_assistant (rev : List Message) (a : String)
    (ha : a.isEmpty = false) :
    postProcess (scanLoop rev (some a) none) =
      (match findUserBack rev with
      | some u => some (u, a)
      | none => none) := by
  induction rev with
  | nil => simp [scanLoop, findUserBack, postProcess]
  | cons m rest ih =>
    have hg1 : (m.role == "assistant" && !pyTruthy (some a)) = false := by
      simp [pyTruthy, ha]
    by_cases hu : m.role == "user"
    · cases ht : headTextNoTool m.content with
      | none => simp [scanLoop, findUserBack, hg1, hu, pyTruthy, ht, ha, ih]
      | some t =>
        cases hte : t.isEmpty <;>
          simp [scanLoop, findUserBack, hg1, hu, pyTruthy, ht, hte, ha, postProcess]
    · simp [scanLoop, findUserBack, hg1, hu, pyTruthy, ha, ih]

/-- The stateful backward scan, post-processed by the final truthiness
check, equals the recursive two-phase search `findPairBack`, for any falsy
starting accumulator. -/
theorem scanLoop_eq_findPairBack (rev : List Message) (a? : Option String)
    (ha : pyTruthy a? = false) :
    postProcess (scanLoop rev a? none) = findPairBack rev := by
  induction rev generalizing a? with
  | nil => rcases a? with _ | s <;> simp [scanLoop, findPairBack, postProcess]
  | cons m rest ih =>
    by_cases hA : m.role == "assistant"
    · cases ht : headText m.content with
      | none => simp [scanLoop, findPairBack, hA, ha, ht, ih a? ha]
      | some t =>
        cases hte : t.isEmpty
        · simp [scanLoop, findPairBack, hA, ha, ht, hte,
            scanLoop_after_assistant rest t hte]
        · have : pyTruthy (some t) = false := by simp [pyTruthy, hte]
          simp [scanLoop, findPairBack, hA, ha, ht, hte, ih (some t) this]
    · by_cases hU : m.role == "user"
      · cases ht : headTextNoTool m.content with
        | none => simp [scanLoop, findPairBack, hA, hU, pyTruthy, ht, ih a? ha]
        | some t =>
          rcases a? with _ | s
          · simp [scanLoop, findPairBack, hA, hU, pyTruthy, ht, postProcess]
          · have hs : s.isEmpty = true := by
              simpa [pyTruthy] using ha
            simp [scanLoop, findPairBack, hA, hU, pyTruthy, ht, postProcess, hs]
      · simp [scanLoop, findPairBack, hA, hU, ih a? ha]

/-- Inversion of the final truthiness check: a submitted pair pins down the
scan state and the non-emptiness of both texts. -/
theorem postProcess_eq_some {p : Option String × Option String} {u a : String}
    (h : postProcess p = some (u, a)) :
    p = (some a, some u) ∧ u.isEmpty = false ∧ a.isEmpty = false := by
  rcases p with ⟨a?, u?⟩
  rcases a? with _ | a' <;> rcases u? with _ | u' <;>
    simp [postProcess] at h
  rcases h with ⟨⟨hu, ha⟩, h1, h2⟩
  subst h1; subst h2
  exact ⟨rfl, hu, ha⟩

/-- Inversion of the final truthiness check: when no pair is produced, the
combined truthiness guard of the source is false. -/
theorem pyTruthy_false_of_postProcess_none {p : Option String × Option String}
    (h : postProcess p = none) : (pyTruthy p.2 && pyTruthy p.1) = false := by
  rcases p with ⟨a?, u?⟩
  rcases a? with _ | a <;> rcases u? with _ | u <;>
    simp [postProcess, pyTruthy] at h ⊢
  cases hu : u.isEmpty <;> cases ha : a.isEmpty <;> simp [hu, ha] at h ⊢

end FoodAgent

namespace FoodAgent

/-- C3, counterexample: in the transcript
`[user "u0", assistant "a1", user "u2"]`, with truthy identifiers, the most
recent assistant text message is `"a1"` and the most recent prior user text
message that is not a tool result is `"u0"` (the claim-side reading
`specMostRecentPair` finds both), yet both hook variants submit nothing,
because the backward scan breaks at the more recent user message `"u2"`
before any assistant text has been recorded.  This refutes the claim that
the event is submitted exactly when both texts are found and the
identifiers are present. -/
theorem on_after_invocation_user_break_counterexample :
    specMostRecentPair
        [⟨"user", [Block.dict (some "u0") false]⟩,
         ⟨"assistant", [Block.dict (some "a1") false]⟩,
         ⟨"user", [Block.dict (some "u2") false]⟩] = some ("u0", "a1") ∧
    (DebugRun.on_after_invocation "mem"
        [⟨"user", [Block.dict (some "u0") false]⟩,
         ⟨"assistant", [Block.dict (some "a1") false]⟩,
         ⟨"user", [Block.dict (some "u2") false]⟩]
        (some "alice") (some "s1") (fun _ => Except.ok ())).events = [] ∧
    (RuntimeApp.on_after_invocation
        [⟨"user", [Block.dict (some "u0") false]⟩,
         ⟨"assistant", [Block.dict (some "a1") false]⟩,
         ⟨"user", [Block.dict (some "u2") false]⟩]
        (some "mem") (some "alice") (some "s1") (fun _ => Except.ok ())).events = [] := by
  refine ⟨by decide, by decide, by decide⟩

/-- C3, amended: after each agent turn, `on_after_invocation` submits the
single two-entry event `[(user_text, "USER"), (assistant_text,
"ASSISTANT")]` exactly when the transcript holds at least two messages, the
required actor/session (and, in the runtime variant, memory) identifiers
are truthy in agent state, and the backward scan finds a pair: the most
recent assistant message carrying a non-empty text (assistant messages with
missing or empty text are skipped), and strictly before it a user text
message without a tool result whose text is non-empty — the scan stopping
with no pair at the first qualifying user text message when it precedes
every recorded assistant text, and when the stopping user text is empty.
In every other case neither variant submits anything. -/
theorem on_after_invocation_submission_characterization :
    ∀ (memory_id : String) (messages : List Message)
      (memory_id? actor? session? : Option String)
      (create_event : EventRec → Except String Unit),
    (DebugRun.on_after_invocation memory_id messages actor? session?
        create_event).events =
      (if 2 ≤ messages.length ∧ pyTruthy actor? = true ∧ pyTruthy session? = true then
        match findPairBack messages.reverse with
        | some (u, a) =>
          [⟨memory_id, actor?.getD "", session?.getD "",
            [(u, "USER"), (a, "ASSISTANT")]⟩]
        | none => []
      else []) ∧
    (RuntimeApp.on_after_invocation messages memory_id? actor? session?
        create_event).events =
      (if pyTruthy memory_id? = true ∧ pyTruthy actor? = true ∧
          pyTruthy session? = true ∧ 2 ≤ messages.length then
        match findPairBack messages.reverse with
        | some (u, a) =>
          [⟨memory_id?.getD "", actor?.getD "", session?.getD "",
            [(u, "USER"), (a, "ASSISTANT")]⟩]
        | none => []
      else []) := by
  intro memory_id messages memory_id? actor? session? create_event
  have hb := scanLoop_eq_findPairBack messages.reverse none rfl
  constructor
  · by_cases hlen : messages.length < 2
    · have h2 : ¬ (2 ≤ messages.length) := by omega
      simp [DebugRun.on_after_invocation, hlen, h2]
    · have h2 : 2 ≤ messages.length := by omega
      by_cases hact : pyTruthy actor? = true
      · by_cases hsess : pyTruthy session? = true
        · cases hp : findPairBack messages.reverse with
          | none =>
            rw [hp] at hb
            have hg := pyTruthy_false_of_postProcess_none hb
            simp [DebugRun.on_after_invocation, hlen, h2, hact, hsess, hg]
          | some pr =>
            rcases pr with ⟨u, a⟩
            rw [hp] at hb
            obtain ⟨hsc, hu, ha⟩ := postProcess_eq_some hb
            rcases hact' : actor? with _ | actor
            · rw [hact'] at hact; simp [pyTruthy] at hact
            · rcases hsess' : session? with _ | sess
              · rw [hsess'] at hsess; simp [pyTruthy] at hsess
              · simp only [DebugRun.on_after_invocation, hsc, hp, h2, hact,
                  hsess, hact', hsess']
                have : ¬ messages.length < 2 := by omega
                have hae : actor.isEmpty = false := by
                  rw [hact'] at hact; simpa [pyTruthy] using hact
                have hse : sess.isEmpty = false := by
                  rw [hsess'] at hsess; simpa [pyTruthy] using hsess
                simp [this, pyTruthy, hu, ha]
                cases create_event ⟨memory_id, actor, sess,
                    [(u, "USER"), (a, "ASSISTANT")]⟩ <;> simp [hae, hse]
        · have : pyTruthy session? = false := by
            cases h : pyTruthy session? with
            | true => exact absurd h hsess
            | false => rfl
          simp [DebugRun.on_after_invocation, hlen, hact, this, hsess]
      · have : pyTruthy actor? = false := by
          cases h : pyTruthy actor? with
          | true => exact absurd h hact
          | false => rfl
        simp [DebugRun.on_after_invocation, hlen, this, hact]
  · by_cases hmem : pyTruthy memory_id? = true
    · by_cases hact : pyTruthy actor? = true
      · by_cases hsess : pyTruthy session? = true
        · by_cases hlen : messages.length < 2
          · have h2 : ¬ (2 ≤ messages.length) := by omega
            simp [RuntimeApp.on_after_invocation, hmem, hact, hsess, hlen, h2]
          · have h2 : 2 ≤ messages.length := by omega
            cases hp : findPairBack messages.reverse with
            | none =>
              rw [hp] at hb
              have hg := pyTruthy_false_of_postProcess_none hb
              simp [RuntimeApp.on_after_invocation, hmem, hact, hsess, hlen,
                h2, hg]
            | some pr =>
              rcases pr with ⟨u, a⟩
              rw [hp] at hb
              obtain ⟨hsc, hu, ha⟩ := postProcess_eq_some hb
              rcases hmem' : memory_id? with _ | mem
              · rw [hmem'] at hmem; simp [pyTruthy] at hmem
              · rcases hact' : actor? with _ | actor
                · rw [hact'] at hact; simp [pyTruthy] at hact
                · rcases hsess' : session? with _ | sess
                  · rw [hsess'] at hsess; simp [pyTruthy] at hsess
                  · simp only [RuntimeApp.on_after_invocation, hsc, hp, h2,
                      hmem, hact, hsess, hmem', hact', hsess']
                    have hme : mem.isEmpty = false := by
                      rw [hmem'] at hmem; simpa [pyTruthy] using hmem
                    have hae : actor.isEmpty = false := by
                      rw [hact'] at hact; simpa [pyTruthy] using hact
                    have hse : sess.isEmpty = false := by
                      rw [hsess'] at hsess; simpa [pyTruthy] using hsess
                    simp [hlen, pyTruthy, hu, ha]
                    cases create_event ⟨mem, actor, sess,
                        [(u, "USER"), (a, "ASSISTANT")]⟩ <;> simp [hme, hae, hse]
        · have hf : pyTruthy session? = false := by
            cases h : pyTruthy session? with
            | true => exact absurd h hsess
            | false => rfl
          simp [RuntimeApp.on_after_invocation, hmem, hact, hf, hsess]
      · have hf : pyTruthy actor? = false := by
          cases h : pyTruthy actor? with
          | true => exact absurd h hact
          | false => rfl
        simp [RuntimeApp.on_after_invocation, hmem, hf, hact]
    · have hf : pyTruthy memory_id? = false := by
        cases h : pyTruthy memory_id? with
        | true => exact absurd h hmem
        | false => rfl
      simp [RuntimeApp.on_after_invocation, hf, hmem]

end FoodAgent

namespace FoodAgent

/-- The imperative `pref_texts` accumulation of the hook equals a
`filterMap` over the retrieved records. -/
theorem foldl_prefBullet (prefs : List PrefRecord) (acc : List String) :
    prefs.foldl
        (fun acc p =>
          match prefBullet p with
          | some b => acc ++ [b]
          | none => acc) acc
      = acc ++ prefs.filterMap prefBullet := by
  induction prefs generalizing acc with
  | nil => simp
  | cons p rest ih =>
    cases hb : prefBullet p <;>
      simp [List.foldl_cons, List.filterMap_cons, hb, ih]

/-- C4, counterexample: in the runtime variant a retrieved preference with
text `"spicy"` changes the system prompt, but the appended context contains
no newline character at all — the header and the bullet are glued with the
literal two-character sequences backslash-n of the escaped f-strings, so
nothing is appended "as a bulleted line under a header" in the
line-structured sense the claim states. -/
theorem on_agent_initialized_runtime_literal_newline_counterexample :
    (RuntimeApp.on_agent_initialized "PROMPT" (some "mid") (some "alice")
        (fun _ => Except.ok
          [PrefRecord.record (PrefContent.dict (some "spicy"))])).system_prompt
      = "PROMPT\\n\\n## User\x27s Food Preferences:\\n- spicy" ∧
    (RuntimeApp.on_agent_initialized "PROMPT" (some "mid") (some "alice")
        (fun _ => Except.ok
          [PrefRecord.record (PrefContent.dict (some "spicy"))])).system_prompt
      ≠ "PROMPT" ∧
    ((RuntimeApp.on_agent_initialized "PROMPT" (some "mid") (some "alice")
        (fun _ => Except.ok
          [PrefRecord.record (PrefContent.dict (some "spicy"))])).system_prompt.toList.contains
      '\n') = false := by
  refine ⟨by decide, by decide, by decide⟩

/-- C4, amended: when retrieval succeeds, each hook variant issues exactly
one `retrieve_memories` call at namespace `user/{actor_id}/food_preferences`
with the fixed preference-summary query (`top_k` 3 in the debug variant, 5
in the runtime variant), and appends to the system prompt each retrieved
result whose content text is non-empty after stripping, as a `"- "`-bulleted
entry under the fixed header of the variant — joined by real newlines in the
debug variant and by the literal backslash-n character pairs in the runtime
variant.  If no result qualifies (in particular when the result list is
empty) the prompt is left unchanged, and when an identifier is missing no
query is made at all. -/
theorem on_agent_initialized_prompt_characterization :
    ∀ (memory_id system_prompt : String) (memory_id? actor? : Option String)
      (prefs : List PrefRecord),
    (DebugRun.on_agent_initialized memory_id system_prompt actor?
        (fun _ => Except.ok prefs)) =
      (if pyTruthy actor? = true then
        ⟨(if (prefs.filterMap prefBullet).isEmpty then system_prompt
          else system_prompt ++ DebugRun.initHeader
            ++ String.intercalate "\n" (prefs.filterMap prefBullet)),
         [⟨memory_id, "user/" ++ actor?.getD "" ++ "/food_preferences",
           prefQuery, 3⟩],
         none⟩
      else ⟨system_prompt, [], none⟩) ∧
    (RuntimeApp.on_agent_initialized system_prompt memory_id? actor?
        (fun _ => Except.ok prefs)) =
      (if pyTruthy memory_id? = true ∧ pyTruthy actor? = true then
        ⟨(if (prefs.filterMap prefBullet).isEmpty then system_prompt
          else system_prompt ++ RuntimeApp.initHeader
            ++ String.intercalate "\\n" (prefs.filterMap prefBullet)),
         [⟨memory_id?.getD "", "user/" ++ actor?.getD "" ++ "/food_preferences",
           prefQuery, 5⟩],
         none⟩
      else ⟨system_prompt, [], none⟩) := by
  intro memory_id system_prompt memory_id? actor? prefs
  constructor
  · by_cases hact : pyTruthy actor? = true
    · cases hne : prefs.isEmpty
      · have hcons : prefs ≠ [] := by
          intro h; rw [h] at hne; simp at hne
        simp only [DebugRun.on_agent_initialized, hact, Bool.not_true,
          Bool.false_eq_true, if_false, hne, foldl_prefBullet, List.nil_append,
          if_true]
        simp [hact]
        split <;> rfl
      · have : prefs = [] := by
          cases prefs with
          | nil => rfl
          | cons p r => simp at hne
        subst this
        simp [DebugRun.on_agent_initialized, hact]
    · have hf : pyTruthy actor? = false := by
        cases h : pyTruthy actor? with
        | true => exact absurd h hact
        | false => rfl
      simp [DebugRun.on_agent_initialized, hf, hact]
  · by_cases hmem : pyTruthy memory_id? = true
    · by_cases hact : pyTruthy actor? = true
      · cases hne : prefs.isEmpty
        · simp only [RuntimeApp.on_agent_initialized, hmem, hact,
            Bool.not_true, hne, foldl_prefBullet, List.nil_append]
          simp [hmem, hact]
          split <;> rfl
        · have : prefs = [] := by
            cases prefs with
            | nil => rfl
            | cons p r => simp at hne
          subst this
          simp [RuntimeApp.on_agent_initialized, hmem, hact]
      · have hf : pyTruthy actor? = false := by
          cases h : pyTruthy actor? with
          | true => exact absurd h hact
          | false => rfl
        simp [RuntimeApp.on_agent_initialized, hmem, hf, hact]
    · have hf : pyTruthy memory_id? = false := by
        cases h : pyTruthy memory_id? with
        | true => exact absurd h hmem
        | false => rfl
      simp [RuntimeApp.on_agent_initialized, hf, hmem]

end FoodAgent

namespace FoodAgent

/-- C5: neither hook propagates an error of the memory calls.  A raised
retrieval error leaves the system prompt unchanged and is logged; a raised
`create_event` error is logged after the submission attempt; in each case
the hook returns normally (the embedded hooks are total functions whose
results carry the logged error rather than an exception). -/
theorem memory_hooks_error_containment :
    (∀ (memory_id system_prompt actor e : String), actor.isEmpty = false →
      DebugRun.on_agent_initialized memory_id system_prompt (some actor)
          (fun _ => Except.error e) =
        ⟨system_prompt,
         [⟨memory_id, "user/" ++ actor ++ "/food_preferences", prefQuery, 3⟩],
         some e⟩) ∧
    (∀ (system_prompt mem actor e : String),
      mem.isEmpty = false → actor.isEmpty = false →
      RuntimeApp.on_agent_initialized system_prompt (some mem) (some actor)
          (fun _ => Except.error e) =
        ⟨system_prompt,
         [⟨mem, "user/" ++ actor ++ "/food_preferences", prefQuery, 5⟩],
         some e⟩) ∧
    (∀ (memory_id : String) (messages : List Message) (actor sess e u a : String),
      actor.isEmpty = false → sess.isEmpty = false → 2 ≤ messages.length →
      findPairBack messages.reverse = some (u, a) →
      DebugRun.on_after_invocation memory_id messages (some actor) (some sess)
          (fun _ => Except.error e) =
        ⟨[⟨memory_id, actor, sess, [(u, "USER"), (a, "ASSISTANT")]⟩], some e⟩) ∧
    (∀ (messages : List Message) (mem actor sess e u a : String),
      mem.isEmpty = false → actor.isEmpty = false → sess.isEmpty = false →
      2 ≤ messages.length → findPairBack messages.reverse = some (u, a) →
      RuntimeApp.on_after_invocation messages (some mem) (some actor)
          (some sess) (fun _ => Except.error e) =
        ⟨[⟨mem, actor, sess, [(u, "USER"), (a, "ASSISTANT")]⟩], some e⟩) := by
  refine ⟨?_, ?_, ?_, ?_⟩
  · intro memory_id system_prompt actor e ha
    simp [DebugRun.on_agent_initialized, pyTruthy, ha]
  · intro system_prompt mem actor e hm ha
    simp [RuntimeApp.on_agent_initialized, pyTruthy, hm, ha]
  · intro memory_id messages actor sess e u a hactor hsess hlen hp
    have hb := scanLoop_eq_findPairBack messages.reverse none rfl
    rw [hp] at hb
    obtain ⟨hsc, hu, haa⟩ := postProcess_eq_some hb
    have hl : ¬ messages.length < 2 := by omega
    simp [DebugRun.on_after_invocation, hsc, hl, pyTruthy, hactor, hsess, hu, haa]
  · intro messages mem actor sess e u a hm hactor hsess hlen hp
    have hb := scanLoop_eq_findPairBack messages.reverse none rfl
    rw [hp] at hb
    obtain ⟨hsc, hu, haa⟩ := postProcess_eq_some hb
    have hl : ¬ messages.length < 2 := by omega
    simp [RuntimeApp.on_after_invocation, hsc, hl, pyTruthy, hm, hactor, hsess,
      hu, haa]

/-- C5 witness: concrete error-containment runs of the debug hooks. -/
theorem memory_hooks_error_containment_witness :
    DebugRun.on_after_invocation "mid"
        [⟨"user", [Block.dict (some "hello") false]⟩,
         ⟨"assistant", [Block.dict (some "hi") false]⟩]
        (some "alice") (some "s1") (fun _ => Except.error "boom") =
      ⟨[⟨"mid", "alice", "s1", [("hello", "USER"), ("hi", "ASSISTANT")]⟩],
        some "boom"⟩ ∧
    DebugRun.on_agent_initialized "mid" "P" (some "alice")
        (fun _ => Except.error "boom") =
      ⟨"P", [⟨"mid", "user/alice/food_preferences", prefQuery, 3⟩],
        some "boom"⟩ := by
  constructor
  · exact memory_hooks_error_containment.2.2.1 "mid" _ "alice" "s1" "boom"
      "hello" "hi" (by decide) (by decide) (by decide) (by decide)
  · exact memory_hooks_error_containment.1 "mid" "P" "alice" "boom" (by decide)

/-- C6: a raised `RatelimitException` of the search backend yields exactly
the string "Rate limit reached. Please try again later.", and any other
raised exception yields "Search error: " followed by the exception text, in
both variants; in each case `search_food` returns that string normally. -/
theorem search_food_exception_strings :
    ∀ (ddgsText : String → Nat → Except SearchErr (List SearchResult))
      (query : String) (n : Nat) (e : SearchErr),
    ddgsText (query ++ " food recipe restaurant") n = Except.error e →
    DebugRun.search_food ddgsText query n =
      (match e with
       | SearchErr.rateLimit => "Rate limit reached. Please try again later."
       | SearchErr.other m => "Search error: " ++ m) ∧
    RuntimeApp.search_food ddgsText query n =
      (match e with
       | SearchErr.rateLimit => "Rate limit reached. Please try again later."
       | SearchErr.other m => "Search error: " ++ m) := by
  intro ddgsText query n e h
  constructor
  · unfold DebugRun.search_food
    rw [h]
    cases e <;> rfl
  · unfold RuntimeApp.search_food
    rw [h]
    cases e <;> rfl

/-- C6 witness: both exception shapes at concrete inputs. -/
theorem search_food_exception_strings_witness :
    DebugRun.search_food (fun _ _ => Except.error SearchErr.rateLimit)
        "pizza" 5 = "Rate limit reached. Please try again later." ∧
    RuntimeApp.search_food (fun _ _ => Except.error (SearchErr.other "boom"))
        "pizza" 5 = "Search error: boom" := by
  constructor
  · exact (search_food_exception_strings
      (fun _ _ => Except.error SearchErr.rateLimit) "pizza" 5
      SearchErr.rateLimit rfl).1
  · exact (search_food_exception_strings
      (fun _ _ => Except.error (SearchErr.other "boom")) "pizza" 5
      (SearchErr.other "boom") rfl).2

/-- C7, counterexample: when the backend hands back two results although
`max_results = 1` was requested, the debug variant formats both entries —
there is no local truncation to the first `max_results` results, so the
output differs from the claim-side `specSearchFormat`.  Moreover the
runtime variant separates title and body with the literal characters
backslash-n, not with an indented new line: its output for one result
contains no newline character. -/
theorem search_food_no_truncation_counterexample :
    DebugRun.search_food
        (fun _ _ => Except.ok [⟨some "T1", some "B1"⟩, ⟨some "T2", some "B2"⟩])
        "pasta" 1 = "1. T1\n   B1\n\n2. T2\n   B2" ∧
    DebugRun.search_food
        (fun _ _ => Except.ok [⟨some "T1", some "B1"⟩, ⟨some "T2", some "B2"⟩])
        "pasta" 1
      ≠ specSearchFormat [⟨some "T1", some "B1"⟩, ⟨some "T2", some "B2"⟩] 1 ∧
    RuntimeApp.search_food (fun _ _ => Except.ok [⟨some "T1", some "B1"⟩])
        "pasta" 5 = "1. T1\\n   B1" ∧
    (RuntimeApp.search_food (fun _ _ => Except.ok [⟨some "T1", some "B1"⟩])
        "pasta" 5).toList.contains '\n' = false := by
  refine ⟨by decide, by decide, by decide, by decide⟩

/-- C7, amended: `search_food` asks the backend for `max_results` results
and formats every result the backend returns, numbered from 1, as
title-then-body-snippet entries (debug variant: body on an indented new
line, entries separated by blank lines; runtime variant: the separators are
the literal backslash-n character pairs of the escaped f-strings), with no
local truncation; when the backend returns at most `max_results` results —
as the search API is asked to — this coincides with the first `max_results`
results.  An empty result list yields "No results found.". -/
theorem search_food_format_amended :
    ∀ (ddgsText : String → Nat → Except SearchErr (List SearchResult))
      (query : String) (n : Nat) (results : List SearchResult),
    ddgsText (query ++ " food recipe restaurant") n = Except.ok results →
    DebugRun.search_food ddgsText query n =
      (if results.isEmpty then "No results found."
       else String.intercalate "\n\n" (formatEntries "\n   " results 1)) ∧
    RuntimeApp.search_food ddgsText query n =
      (if results.isEmpty then "No results found."
       else String.intercalate "\\n\\n" (formatEntries "\\n   " results 1)) ∧
    (results.length ≤ n →
      DebugRun.search_food ddgsText query n = specSearchFormat results n) := by
  intro ddgsText query n results h
  refine ⟨?_, ?_, ?_⟩
  · unfold DebugRun.search_food
    rw [h]
  · unfold RuntimeApp.search_food
    rw [h]
  · intro hlen
    have ht : results.take n = results := List.take_of_length_le hlen
    unfold DebugRun.search_food specSearchFormat
    rw [h, ht]

/-- C7 witness: the amended formatting at a concrete one-result input and
at the concrete empty-result input. -/
theorem search_food_format_amended_witness :
    DebugRun.search_food (fun _ _ => Except.ok [⟨some "T1", some "B1"⟩])
        "pasta" 5 = "1. T1\n   B1" ∧
    DebugRun.search_food (fun _ _ => Except.ok ([] : List SearchResult))
        "soup" 5 = "No results found." := by
  constructor
  · rw [(search_food_format_amended
      (fun _ _ => Except.ok [⟨some "T1", some "B1"⟩]) "pasta" 5
      [⟨some "T1", some "B1"⟩] rfl).1]
    decide
  · rw [(search_food_format_amended
      (fun _ _ => Except.ok ([] : List SearchResult)) "soup" 5 [] rfl).1]
    decide

end FoodAgent

namespace FoodAgent

/-- The retry loop makes at most as many agent calls as it has remaining
iterations. -/
theorem safeInvokeLoop_ncalls_le (calls : Nat → String → CallResult) :
    ∀ (model : String) (attempt rem : Nat),
    (safeInvokeLoop calls model attempt rem).ncalls ≤ rem := by
  intro model attempt rem
  induction rem generalizing model attempt with
  | zero => simp [safeInvokeLoop]
  | succ n ih =>
    simp only [safeInvokeLoop]
    cases hc : calls attempt model with
    | ok v => simp
    | raise msg =>
      by_cases ht : isThrottling msg
      · by_cases hlt : attempt < fallbacks.length
        · have hg : fallbacks[attempt]?.getD "" = fallbacks[attempt] := by
            rw [List.getElem?_eq_getElem hlt]
            rfl
          have h := ih (fallbacks[attempt]) (attempt + 1)
          simp [ht, hlt, hg]
          omega
        · simp [ht, hlt]
      · simp [ht]

/-- With at least one remaining iteration the retry loop makes at least one
agent call. -/
theorem safeInvokeLoop_ncalls_pos (calls : Nat → String → CallResult)
    (model : String) (attempt rem : Nat) :
    1 ≤ (safeInvokeLoop calls model attempt (rem + 1)).ncalls := by
  simp only [safeInvokeLoop]
  cases hc : calls attempt model with
  | ok v => simp
  | raise msg =>
    by_cases ht : isThrottling msg
    · by_cases hlt : attempt < fallbacks.length
      · simp [ht, hlt]
      · simp [ht, hlt]
    · simp [ht]

/-- One throttled iteration of the retry loop inside the fallback range:
the model is reassigned to the next fallback entry, `2 ^ attempt` seconds
are slept, and the loop continues with the swapped model at the next
attempt. -/
theorem safeInvokeLoop_throttle_step (calls : Nat → String → CallResult)
    (model : String) (attempt rem : Nat) (msg : String)
    (hc : calls attempt model = CallResult.raise msg)
    (ht : isThrottling msg = true)
    (hlt : attempt < fallbacks.length) :
    safeInvokeLoop calls model attempt (rem + 1) =
      ⟨(safeInvokeLoop calls (fallbacks.getD attempt "") (attempt + 1) rem).ncalls + 1,
       2 ^ attempt
         :: (safeInvokeLoop calls (fallbacks.getD attempt "") (attempt + 1) rem).sleeps,
       fallbacks.getD attempt ""
         :: (safeInvokeLoop calls (fallbacks.getD attempt "") (attempt + 1) rem).swaps,
       (safeInvokeLoop calls (fallbacks.getD attempt "") (attempt + 1) rem).outcome⟩ := by
  have hg : fallbacks[attempt] = fallbacks.getD attempt "" := by
    rw [List.getD_eq_getElem _ _ hlt]
  simp only [safeInvokeLoop, hc, ht, if_true, dif_pos hlt, hg]

/-- When every attempt within the fallback range raises a throttling error,
the loop runs to exhaustion and falls through, returning Python None. -/
theorem safeInvokeLoop_all_throttle (calls : Nat → String → CallResult) :
    ∀ (rem attempt : Nat) (model : String), attempt + rem ≤ 3 →
    (∀ i m, i < 3 → ∃ msg, calls i m = CallResult.raise msg ∧ isThrottling msg = true) →
    (safeInvokeLoop calls model attempt rem).outcome = SafeOutcome.returned none := by
  intro rem
  induction rem with
  | zero => intro attempt model hb h; simp [safeInvokeLoop]
  | succ n ih =>
    intro attempt model hb h
    obtain ⟨msg, hc, ht⟩ := h attempt model (by omega)
    have hlt : attempt < fallbacks.length := by
      simp [fallbacks]; omega
    rw [safeInvokeLoop_throttle_step calls model attempt n msg hc ht hlt]
    exact ih (attempt + 1) _ (by omega) h

/-- C1, counterexample: when every attempt raises a throttling-classified
error at the default `max_retries = 3`, `safe_invoke` does not re-raise the
error — the guard `attempt < len(fallbacks)` is satisfied at every attempt
(`0, 1, 2 < 3`), so the loop swaps models, sleeps, exhausts its range and
falls through, returning Python None normally.  This refutes the
fallback-list-exhaustion half of the claim. -/
theorem safe_invoke_all_throttle_no_reraise :
    (safe_invoke
        (fun _ _ => CallResult.raise "ThrottlingException: Rate exceeded (429)")
        "us.anthropic.claude-3-5-haiku-20241022-v1:0" 3).trace.outcome
      = SafeOutcome.returned none ∧
    (safe_invoke
        (fun _ _ => CallResult.raise "ThrottlingException: Rate exceeded (429)")
        "us.anthropic.claude-3-5-haiku-20241022-v1:0" 3).trace.outcome
      ≠ SafeOutcome.raised "ThrottlingException: Rate exceeded (429)" := by
  refine ⟨by decide, by decide⟩

/-- C1, amended: `safe_invoke` re-raises a non-throttling error raised at
any attempt, and re-raises a throttling error raised at an attempt index
`≥ 3` (beyond the fallback list, reachable only when `max_retries > 3`);
but when every attempt raises a throttling-classified error at the default
`max_retries = 3`, it returns Python None instead of re-raising — the
fallback-list-exhaustion case does not propagate the error. -/
theorem safe_invoke_error_propagation_amended :
    (∀ (calls : Nat → String → CallResult) (model : String),
      (∀ i m, i < 3 → ∃ msg, calls i m = CallResult.raise msg ∧ isThrottling msg = true) →
      (safe_invoke calls model 3).trace.outcome = SafeOutcome.returned none) ∧
    (∀ (calls : Nat → String → CallResult) (model : String) (attempt rem : Nat)
      (msg : String), calls attempt model = CallResult.raise msg →
      isThrottling msg = false →
      (safeInvokeLoop calls model attempt (rem + 1)).outcome = SafeOutcome.raised msg) ∧
    (∀ (calls : Nat → String → CallResult) (model : String) (attempt rem : Nat)
      (msg : String), calls attempt model = CallResult.raise msg →
      isThrottling msg = true → 3 ≤ attempt →
      (safeInvokeLoop calls model attempt (rem + 1)).outcome = SafeOutcome.raised msg) := by
  refine ⟨?_, ?_, ?_⟩
  · intro calls model h
    exact safeInvokeLoop_all_throttle calls 3 0 model (by omega) h
  · intro calls model attempt rem msg hc ht
    simp [safeInvokeLoop, hc, ht]
  · intro calls model attempt rem msg hc ht h3
    have hge : ¬ attempt < fallbacks.length := by
      simp [fallbacks]; omega
    simp [safeInvokeLoop, hc, ht, hge]

/-- C1 witness: the three amended propagation behaviors at concrete
inputs. -/
theorem safe_invoke_error_propagation_amended_witness :
    (safe_invoke (fun _ _ => CallResult.raise "throttled") "m" 3).trace.outcome
      = SafeOutcome.returned none ∧
    (safeInvokeLoop (fun _ _ => CallResult.raise "boom") "m" 0 (2 + 1)).outcome
      = SafeOutcome.raised "boom" ∧
    (safeInvokeLoop (fun _ _ => CallResult.raise "429") "m" 5 (0 + 1)).outcome
      = SafeOutcome.raised "429" := by
  refine ⟨safe_invoke_error_propagation_amended.1 _ _
      (fun i m hi => ⟨"throttled", rfl, by decide⟩),
    safe_invoke_error_propagation_amended.2.1 _ "m" 0 2 "boom" rfl (by decide),
    safe_invoke_error_propagation_amended.2.2 _ "m" 5 0 "429" rfl (by decide)
      (by omega)⟩

/-- C2: an exception is classified as throttling exactly when its lowercased
text contains "throttl", "429" or "rate"; the fallback list has three
entries; a whole `safe_invoke` run is the fixed 1-second pre-delay followed
by the loop from attempt 0; and on a throttling classification at 0-based
attempt `i` with attempts remaining (`i + 1 < 3` in the default
`max_retries = 3` run, where the loop at attempt `i` has `3 - i` iterations
left), the loop reassigns the model to entry `i` of the fallback list —
the next unused entry — sleeps `2 ^ i` seconds, and retries: the
continuation performs at least one further agent call. -/
theorem safe_invoke_throttle_classification_and_backoff :
    (∀ msg : String, isThrottling msg =
      (strContainsSub (pyLower msg) "throttl" || strContainsSub (pyLower msg) "429"
        || strContainsSub (pyLower msg) "rate")) ∧
    fallbacks.length = 3 ∧
    (∀ (calls : Nat → String → CallResult) (model : String),
      safe_invoke calls model 3 = ⟨1, safeInvokeLoop calls model 0 3⟩) ∧
    (∀ (calls : Nat → String → CallResult) (model : String) (i : Nat)
      (msg : String), i + 1 < 3 → calls i model = CallResult.raise msg →
      isThrottling msg = true →
      safeInvokeLoop calls model i (3 - i) =
        ⟨(safeInvokeLoop calls (fallbacks.getD i "") (i + 1) (3 - (i + 1))).ncalls + 1,
         2 ^ i
           :: (safeInvokeLoop calls (fallbacks.getD i "") (i + 1) (3 - (i + 1))).sleeps,
         fallbacks.getD i ""
           :: (safeInvokeLoop calls (fallbacks.getD i "") (i + 1) (3 - (i + 1))).swaps,
         (safeInvokeLoop calls (fallbacks.getD i "") (i + 1) (3 - (i + 1))).outcome⟩ ∧
      1 ≤ (safeInvokeLoop calls (fallbacks.getD i "") (i + 1) (3 - (i + 1))).ncalls) := by
  refine ⟨fun msg => rfl, rfl, fun calls model => rfl, ?_⟩
  intro calls model i msg hi hc ht
  have hlt : i < fallbacks.length := by
    simp [fallbacks]; omega
  have hub : i < 2 := by omega
  interval_cases i
  · exact ⟨safeInvokeLoop_throttle_step calls model 0 2 msg hc ht hlt,
      safeInvokeLoop_ncalls_pos calls _ 1 1⟩
  · exact ⟨safeInvokeLoop_throttle_step calls model 1 1 msg hc ht hlt,
      safeInvokeLoop_ncalls_pos calls _ 2 0⟩

/-- C2 witness: the classification and one concrete throttled step. -/
theorem safe_invoke_throttle_classification_and_backoff_witness :
    isThrottling "429" =
      (strContainsSub (pyLower "429") "throttl" || strContainsSub (pyLower "429") "429"
        || strContainsSub (pyLower "429") "rate") ∧
    (safeInvokeLoop (fun _ _ => CallResult.raise "429") "m" 0 (3 - 0)).sleeps
      = 2 ^ 0 :: (safeInvokeLoop (fun _ _ => CallResult.raise "429")
          (fallbacks.getD 0 "") (0 + 1) (3 - (0 + 1))).sleeps ∧
    1 ≤ (safeInvokeLoop (fun _ _ => CallResult.raise "429")
        (fallbacks.getD 0 "") (0 + 1) (3 - (0 + 1))).ncalls := by
  have h := safe_invoke_throttle_classification_and_backoff.2.2.2
    (fun _ _ => CallResult.raise "429") "m" 0 "429" (by omega) rfl (by decide)
  exact ⟨safe_invoke_throttle_classification_and_backoff.1 "429",
    by rw [h.1], h.2⟩

/-- C8: `safe_invoke` always terminates with a single fixed 1-second delay
before the first attempt and at most `max_retries` invocations of the
wrapped agent (the repository call sites use the default
`max_retries = 3`), for every pattern of successes and errors the agent
call can produce. -/
theorem safe_invoke_bounded_attempts :
    ∀ (calls : Nat → String → CallResult) (model : String) (max_retries : Nat),
    (safe_invoke calls model max_retries).preDelay = 1 ∧
    (safe_invoke calls model max_retries).trace.ncalls ≤ max_retries := by
  intro calls model max_retries
  exact ⟨rfl, safeInvokeLoop_ncalls_le calls model 0 max_retries⟩

end FoodAgent

namespace FoodAgent

/-- C9: for every payload whose prompt field is missing or falsy, the
runtime entrypoint returns an error string beginning with the marker
followed by ERROR (the string "❌ ERROR: Missing ... field in payload"),
makes no `initialize_agent` call and no agent invocation — so no model call
and no memory access happen — and leaves the global agent unchanged. -/
theorem food_agent_missing_prompt_rejected :
    ∀ (agent0 : Option RuntimeApp.AgentRec) (payload : RuntimeApp.Payload)
      (session_id MEMORY_ID : String) (invoke : String → String),
    pyTruthy payload.prompt = false →
    charsStartWith "❌ ERROR:".toList
      (RuntimeApp.food_agent agent0 payload session_id MEMORY_ID
        invoke).response.toList = true ∧
    (RuntimeApp.food_agent agent0 payload session_id MEMORY_ID invoke).inits = [] ∧
    (RuntimeApp.food_agent agent0 payload session_id MEMORY_ID
        invoke).invocations = [] ∧
    (RuntimeApp.food_agent agent0 payload session_id MEMORY_ID invoke).agent
      = agent0 := by
  intro agent0 payload session_id MEMORY_ID invoke h
  have hcut : RuntimeApp.food_agent agent0 payload session_id MEMORY_ID invoke
      = ⟨agent0, "❌ ERROR: Missing \x27prompt\x27 field in payload", [], []⟩ := by
    unfold RuntimeApp.food_agent
    simp [h]
  rw [hcut]
  refine ⟨?_, rfl, rfl, rfl⟩
  show charsStartWith "❌ ERROR:".toList
      ("❌ ERROR: Missing \x27prompt\x27 field in payload").toList = true
  decide

/-- C9 witness: a payload without a prompt at concrete inputs. -/
theorem food_agent_missing_prompt_rejected_witness :
    charsStartWith "❌ ERROR:".toList
      (RuntimeApp.food_agent none ⟨none, some "alice"⟩ "s1" "MID"
        (fun s => s)).response.toList = true ∧
    (RuntimeApp.food_agent none ⟨none, some "alice"⟩ "s1" "MID"
        (fun s => s)).invocations = [] := by
  have h := food_agent_missing_prompt_rejected none ⟨none, some "alice"⟩ "s1"
    "MID" (fun s => s) (by decide)
  exact ⟨h.1, h.2.2.1⟩

/-- C10: every entrypoint run that reaches agent invocation (truthy prompt
and MEMORY_ID) invokes the agent exactly once on the prompt, ends with a
global agent whose state holds the request actor (defaulting to
"default_user") and the context session; and `initialize_agent` is called
exactly when no agent existed yet or one of the two identifiers differs
from the previous values, with those request identifiers as arguments. -/
theorem food_agent_state_invariant :
    ∀ (agent0 : Option RuntimeApp.AgentRec) (payload : RuntimeApp.Payload)
      (session_id MEMORY_ID : String) (invoke : String → String) (ui : String),
    payload.prompt = some ui → ui.isEmpty = false → MEMORY_ID.isEmpty = false →
    (RuntimeApp.food_agent agent0 payload session_id MEMORY_ID
        invoke).invocations = [ui] ∧
    ((RuntimeApp.food_agent agent0 payload session_id MEMORY_ID
        invoke).agent.map (fun a => (a.actor_id, a.session_id)))
      = some (payload.actor_id.getD "default_user", session_id) ∧
    (RuntimeApp.food_agent agent0 payload session_id MEMORY_ID invoke).inits
      = (match agent0 with
        | none => [(payload.actor_id.getD "default_user", session_id)]
        | some a =>
          if a.session_id ≠ session_id ∨
              a.actor_id ≠ payload.actor_id.getD "default_user" then
            [(payload.actor_id.getD "default_user", session_id)]
          else []) := by
  intro agent0 payload session_id MEMORY_ID invoke ui hp hui hmid
  have hptu : pyTruthy (some ui) = true := by
    simp [pyTruthy, hui]
  cases agent0 with
  | none =>
    unfold RuntimeApp.food_agent
    simp [hp, hptu, hmid]
  | some a =>
    by_cases hchg : a.session_id ≠ session_id ∨
        a.actor_id ≠ payload.actor_id.getD "default_user"
    · unfold RuntimeApp.food_agent
      simp [hp, hptu, hmid, hchg]
    · unfold RuntimeApp.food_agent
      push_neg at hchg
      simp [hp, hptu, hmid, hchg.1, hchg.2]

/-- C10 witness: a second request with an unchanged actor/session pair at
concrete inputs (the agent is reused, not re-created), by direct
application of the invariant. -/
theorem food_agent_state_invariant_witness :
    (RuntimeApp.food_agent (some ⟨"MID", "default_user", "s1"⟩)
        ⟨some "hi", none⟩ "s1" "MID" (fun s => s)).invocations = ["hi"] ∧
    ((RuntimeApp.food_agent (some ⟨"MID", "default_user", "s1"⟩)
        ⟨some "hi", none⟩ "s1" "MID" (fun s => s)).agent.map
      (fun a => (a.actor_id, a.session_id))) = some ("default_user", "s1") ∧
    (RuntimeApp.food_agent (some ⟨"MID", "default_user", "s1"⟩)
        ⟨some "hi", none⟩ "s1" "MID" (fun s => s)).inits = [] := by
  have h := food_agent_state_invariant (some ⟨"MID", "default_user", "s1"⟩)
    ⟨some "hi", none⟩ "s1" "MID" (fun s => s) "hi" rfl (by decide) (by decide)
  refine ⟨h.1, h.2.1, ?_⟩
  have h3 := h.2.2
  simpa using h3

end FoodAgent
